import Mathlib

/-!
Shallow embedding of the two trading bots of this repository,
`DASH_EURO_BOT.py` (namespace `Dash`) and `POL_EUR_trallingloss.py`
(namespace `Pol`).  Python floats are modelled as exact rationals (`ℚ`);
the mutable loop state is passed explicitly; network effects are inputs
(the fetched price or ticker, the fetched balances) and outputs (the
orders handed to `place_order`, whether balances were fetched, the sleep
length chosen).  `None`-or-float variables become `Option ℚ`, with Python
truthiness (`None` and `0.0` falsy) modelled explicitly.  The signing
scheme (`hmac.new(...)` over `json.dumps(...)`) is embedded concretely:
namespace `Crypto` implements SHA-256, HMAC-SHA256 and UTF-8 encoding,
and namespace `Json` the two `json.dumps` serializations the bots use
(compact separators in `DASH_EURO_BOT.py`, the default separators with
spaces in `POL_EUR_trallingloss.py`).
-/

set_option maxHeartbeats 1000000
set_option maxRecDepth 100000

/-- An order as handed to `place_order`: the order type (`"buy"`/`"sell"`),
the amount and the price arguments of the call. -/
structure Order where
  order_type : String
  amount : ℚ
  price : ℚ
deriving DecidableEq, Repr

/-- Python truthiness of a float-or-`None` variable: `None` and `0.0` are
falsy, every other float is truthy. -/
def pyTruthy (x : Option ℚ) : Bool :=
  match x with
  | none => false
  | some v => decide (v ≠ 0)

/-- Python's `sorted(xs)`: stable ascending sort (`List.insertionSort` is
stable, hence produces the same list as CPython's stable sort). -/
def pySorted (xs : List ℚ) : List ℚ :=
  List.insertionSort (· ≤ ·) xs

/-- Python's `sorted(xs, reverse=True)`: stable descending sort. -/
def pySortedDesc (xs : List ℚ) : List ℚ :=
  List.insertionSort (fun a b => b ≤ a) xs

/-- Python's slice `xs[-k:]`.  For `k = 0` the slice `xs[0:]` is the whole
list; for `k > 0` it is the last `min k (length xs)` elements. -/
def pyTail (k : Nat) (xs : List ℚ) : List ℚ :=
  if k = 0 then xs else xs.drop (xs.length - k)

/-- Whether an optional trailing-stop value did not decrease: `true` when
the old stop is absent, or both are present and the new one is at least
the old one; `false` when a present stop disappeared. -/
def stopOrdered : Option ℚ → Option ℚ → Bool
  | some s, some t => decide (s ≤ t)
  | some _, none => false
  | none, _ => true

namespace Crypto

/-- 32-bit word arithmetic: values are `Nat`s reduced `% 2 ^ 32`. -/
def wmask (x : Nat) : Nat := x % 2 ^ 32

/-- Right rotation of a 32-bit word. -/
def rotr (n x : Nat) : Nat := wmask (x >>> n ||| x <<< (32 - n))

/-- The 64 SHA-256 round constants (FIPS 180-4, in decimal). -/
def K : List Nat :=
  [1116352408, 1899447441, 3049323471, 3921009573,
   961987163, 1508970993, 2453635748, 2870763221,
   3624381080, 310598401, 607225278, 1426881987,
   1925078388, 2162078206, 2614888103, 3248222580,
   3835390401, 4022224774, 264347078, 604807628,
   770255983, 1249150122, 1555081692, 1996064986,
   2554220882, 2821834349, 2952996808, 3210313671,
   3336571891, 3584528711, 113926993, 338241895,
   666307205, 773529912, 1294757372, 1396182291,
   1695183700, 1986661051, 2177026350, 2456956037,
   2730485921, 2820302411, 3259730800, 3345764771,
   3516065817, 3600352804, 4094571909, 275423344,
   430227734, 506948616, 659060556, 883997877,
   958139571, 1322822218, 1537002063, 1747873779,
   1955562222, 2024104815, 2227730452, 2361852424,
   2428436474, 2756734187, 3204031479, 3329325298]

/-- The SHA-256 initial hash value (FIPS 180-4, in decimal). -/
def H0 : List Nat :=
  [1779033703, 3144134277, 1013904242, 2773480762,
   1359893119, 2600822924, 528734635, 1541459225]

/-- The `n` big-endian bytes of `x`. -/
def beBytes (n x : Nat) : List Nat :=
  (List.range n).map (fun i => (x >>> (8 * (n - 1 - i))) % 256)

/-- SHA-256 padding: append `0x80`, zeros up to 56 mod 64, then the
64-bit big-endian bit length. -/
def pad (msg : List Nat) : List Nat :=
  let L := msg.length
  let k := (64 - (L + 9) % 64) % 64
  msg ++ [0x80] ++ List.replicate k 0 ++ beBytes 8 (8 * L)

/-- Split a byte string into `n` 64-byte blocks (the padded message has
exactly `length / 64` of them). -/
def chunksN : Nat → List Nat → List (List Nat)
  | 0, _ => []
  | n + 1, l => l.take 64 :: chunksN n (l.drop 64)

/-- Combine bytes big-endian, four at a time, into 32-bit words. -/
def toWords : List Nat → List Nat
  | a :: b :: c :: d :: rest => ((((a <<< 8) ||| b) <<< 8 ||| c) <<< 8 ||| d) :: toWords rest
  | _ => []

def smallSigma0 (x : Nat) : Nat := rotr 7 x ^^^ rotr 18 x ^^^ (x >>> 3)

def smallSigma1 (x : Nat) : Nat := rotr 17 x ^^^ rotr 19 x ^^^ (x >>> 10)

def bigSigma0 (x : Nat) : Nat := rotr 2 x ^^^ rotr 13 x ^^^ rotr 22 x

def bigSigma1 (x : Nat) : Nat := rotr 6 x ^^^ rotr 11 x ^^^ rotr 25 x

/-- One message-schedule extension step: with `t` words computed so far,
append `w[t-16] + σ0 (w[t-15]) + w[t-7] + σ1 (w[t-2])`. -/
def extendStep (ws : List Nat) : List Nat :=
  let n := ws.length
  ws ++ [wmask (ws.getD (n - 16) 0 + smallSigma0 (ws.getD (n - 15) 0) +
    ws.getD (n - 7) 0 + smallSigma1 (ws.getD (n - 2) 0))]

/-- The 64-word message schedule of a 64-byte block. -/
def schedule (block : List Nat) : List Nat :=
  Nat.iterate extendStep 48 (toWords block)

/-- The eight SHA-256 working variables. -/
structure Hash8 where
  a : Nat
  b : Nat
  c : Nat
  d : Nat
  e : Nat
  f : Nat
  g : Nat
  hh : Nat
deriving DecidableEq, Repr

/-- One SHA-256 compression round for a (round constant, schedule word). -/
def sha256Round (st : Hash8) (kw : Nat × Nat) : Hash8 :=
  let ch := (st.e &&& st.f) ^^^ ((st.e ^^^ 0xffffffff) &&& st.g)
  let t1 := wmask (st.hh + bigSigma1 st.e + ch + kw.1 + kw.2)
  let maj := (st.a &&& st.b) ^^^ (st.a &&& st.c) ^^^ (st.b &&& st.c)
  let t2 := wmask (bigSigma0 st.a + maj)
  ⟨wmask (t1 + t2), st.a, st.b, st.c, wmask (st.d + t1), st.e, st.f, st.g⟩

/-- Compress one 64-byte block into the running hash (eight words). -/
def compress (hs : List Nat) (block : List Nat) : List Nat :=
  let st0 : Hash8 := ⟨hs.getD 0 0, hs.getD 1 0, hs.getD 2 0, hs.getD 3 0,
    hs.getD 4 0, hs.getD 5 0, hs.getD 6 0, hs.getD 7 0⟩
  let s := (K.zip (schedule block)).foldl sha256Round st0
  [wmask (hs.getD 0 0 + s.a), wmask (hs.getD 1 0 + s.b), wmask (hs.getD 2 0 + s.c),
   wmask (hs.getD 3 0 + s.d), wmask (hs.getD 4 0 + s.e), wmask (hs.getD 5 0 + s.f),
   wmask (hs.getD 6 0 + s.g), wmask (hs.getD 7 0 + s.hh)]

/-- SHA-256 of a byte string, as the 32 digest bytes. -/
def sha256 (msg : List Nat) : List Nat :=
  let padded := pad msg
  (((chunksN (padded.length / 64) padded).foldl compress H0).map (beBytes 4)).flatten

/-- Lower-case hex digit. -/
def hexChar (d : Nat) : Char :=
  if d < 10 then Char.ofNat (48 + d) else Char.ofNat (87 + d)

/-- Lower-case hex rendering of a byte string (cf. `.hexdigest()`). -/
def bytesToHex (bs : List Nat) : String :=
  String.mk ((bs.map (fun b => [hexChar (b / 16), hexChar (b % 16)])).flatten)

/-- HMAC-SHA256 (RFC 2104) of a message under a key, as digest bytes. -/
def hmacSha256 (key msg : List Nat) : List Nat :=
  let kh := if 64 < key.length then sha256 key else key
  let k0 := kh ++ List.replicate (64 - kh.length) 0
  let ipad := k0.map (fun b => b ^^^ 0x36)
  let opad := k0.map (fun b => b ^^^ 0x5c)
  sha256 (opad ++ sha256 (ipad ++ msg))

/-- UTF-8 encoding of one code point. -/
def utf8Char (n : Nat) : List Nat :=
  if n < 0x80 then [n]
  else if n < 0x800 then [0xC0 ||| n >>> 6, 0x80 ||| (n &&& 63)]
  else if n < 0x10000 then
    [0xE0 ||| n >>> 12, 0x80 ||| ((n >>> 6) &&& 63), 0x80 ||| (n &&& 63)]
  else
    [0xF0 ||| n >>> 18, 0x80 ||| ((n >>> 12) &&& 63), 0x80 ||| ((n >>> 6) &&& 63),
     0x80 ||| (n &&& 63)]

/-- UTF-8 encoding of a string (`.encode('utf-8')`). -/
def utf8Bytes (s : String) : List Nat :=
  (s.data.map (fun c => utf8Char c.toNat)).flatten

end Crypto

namespace Json

/-- The JSON scalars the two bots put into request payloads: integers
(the `ts` timestamp) and strings (pair, type, amount, price fields; both
bots stringify amounts and prices or pass them through `json.dumps`
unchanged — only these two shapes occur in the signed payloads). -/
inductive JVal where
  | jint : Int → JVal
  | jstr : String → JVal
deriving DecidableEq, Repr

/-- A JSON object in insertion order, as built by the Python dicts
(`json.dumps` keeps insertion order; `sort_keys` defaults to `False`). -/
abbrev Payload := List (String × JVal)

/-- Serialization of a scalar.  The strings the bots serialize contain no
character that `json.dumps` escapes, so quoting is plain. -/
def dumpVal : JVal → String
  | .jint n => toString n
  | .jstr s => "\"" ++ s ++ "\""

/-- One `"key":value` entry in compact form (separators `(',', ':')`). -/
def entryCompact (kv : String × JVal) : String :=
  "\"" ++ kv.1 ++ "\":" ++ dumpVal kv.2

/-- One `"key": value` entry with the default separator `': '`. -/
def entryDefault (kv : String × JVal) : String :=
  "\"" ++ kv.1 ++ "\": " ++ dumpVal kv.2

/-- Comma-joined entries, compact separators. -/
def entriesCompact : Payload → String
  | [] => ""
  | [kv] => entryCompact kv
  | kv :: rest => entryCompact kv ++ "," ++ entriesCompact rest

/-- Comma-joined entries with the default separator `', '`. -/
def entriesDefault : Payload → String
  | [] => ""
  | [kv] => entryDefault kv
  | kv :: rest => entryDefault kv ++ ", " ++ entriesDefault rest

/-- `json.dumps(params, separators=(',', ':'), ensure_ascii=False)` as in
`DASH_EURO_BOT.py` line 48: the compact canonical form. -/
def dumpsCompact (p : Payload) : String :=
  "\x7b" ++ entriesCompact p ++ "\x7d"

/-- `json.dumps(req_body)` as in `POL_EUR_trallingloss.py` line 25: the
default separators are `(', ', ': ')`, inserting a space after every
comma and colon. -/
def dumpsDefault (p : Payload) : String :=
  "\x7b" ++ entriesDefault p ++ "\x7d"

end Json

namespace Dash

/-- `BALANCE_THRESHOLD = 0.001` (line 25). -/
def BALANCE_THRESHOLD : ℚ := 1/1000

/-- `RISK_PER_TRADE = 0.01` (line 26). -/
def RISK_PER_TRADE : ℚ := 1/100

/-- `TRAILING_STOP_PERCENT = 0.02` (line 27). -/
def TRAILING_STOP_PERCENT : ℚ := 2/100

/-- `INITIAL_GRID_BUY_LEVELS` (line 28). -/
def INITIAL_GRID_BUY_LEVELS : List ℚ :=
  [18, 15, 16, 17, 19, 20, 21, 45/2, 23, 47/2, 24, 241/10]

/-- `INITIAL_GRID_SELL_LEVELS` (lines 29–32). -/
def INITIAL_GRID_SELL_LEVELS : List ℚ :=
  [150, 100, 120, 80, 70, 60, 50, 45, 42, 41,
   39, 38, 37, 36, 35, 34, 33, 32, 31, 30, 28, 27]

/-- The string signed by `generate_signature` (line 50):
`method + params_json` with the compact serialization of line 48. -/
def signedMessage (method : String) (params : Json.Payload) : String :=
  method ++ Json.dumpsCompact params

/-- `generate_signature` (lines 41–51): hex HMAC-SHA256 of the UTF-8
bytes of `signedMessage`, keyed by the UTF-8 bytes of the secret (the
secret comes from the environment, so it is a parameter here). -/
def generate_signature (api_secret method : String) (params : Json.Payload) : String :=
  Crypto.bytesToHex (Crypto.hmacSha256 (Crypto.utf8Bytes api_secret)
    (Crypto.utf8Bytes (signedMessage method params)))

/-- `calculate_position_size` (lines 108–116):
`(balance * risk_percentage) / price`. -/
def calculate_position_size (balance risk_percentage price : ℚ) : ℚ :=
  balance * risk_percentage / price

/-- `adjust_grid_levels` (lines 118–130): map each level `L` to
`current_price + (L - current_price) * compression_factor`, return the
list sorted ascending. -/
def adjust_grid_levels (current_price : ℚ) (initial_levels : List ℚ)
    (compression_factor : ℚ) : List ℚ :=
  pySorted (initial_levels.map
    (fun level => current_price + (level - current_price) * compression_factor))

/-- The simple moving average `sum(prices[-window:]) / window` used for
both `short_sma` and `long_sma` in `detect_trend` (lines 142–143). -/
def sma (prices : List ℚ) (window : Nat) : ℚ :=
  (pyTail window prices).sum / (window : ℚ)

/-- `detect_trend` (lines 132–149). -/
def detect_trend (prices : List ℚ) (short_window long_window : Nat) : String :=
  if prices.length < long_window then "neutral"
  else if sma prices short_window > sma prices long_window then "up"
  else if sma prices short_window < sma prices long_window then "down"
  else "neutral"

/-- Lines 168–171 of `main`: `historical_prices.append(current_price)`,
then `pop(0)` when the length exceeds 100. -/
def recordPrice (historical_prices : List ℚ) (current_price : ℚ) : List ℚ :=
  let h := historical_prices ++ [current_price]
  if 100 < h.length then h.drop 1 else h

/-- The buy-level scan of lines 186–192: iterate over the sorted buy grid,
return the first level with `current_price ≤ level` and
`eur_balance > BALANCE_THRESHOLD` (the loop `break`s at the first hit). -/
def firstBuyLevel (levels : List ℚ) (current_price eur_balance : ℚ) : Option ℚ :=
  match levels with
  | [] => none
  | level :: rest =>
    if current_price ≤ level ∧ BALANCE_THRESHOLD < eur_balance then some level
    else firstBuyLevel rest current_price eur_balance

/-- The sell-level scan of lines 205–211: iterate over the descending-sorted
sell grid, return the first level with `current_price ≥ level` and
`dash_balance > BALANCE_THRESHOLD`. -/
def firstSellLevel (levels : List ℚ) (current_price dash_balance : ℚ) : Option ℚ :=
  match levels with
  | [] => none
  | level :: rest =>
    if level ≤ current_price ∧ BALANCE_THRESHOLD < dash_balance then some level
    else firstSellLevel rest current_price dash_balance

/-- Line 188 of `main`:
`buy_amount = min(max_buy_amount, eur_balance / current_price)` with
`max_buy_amount = calculate_position_size(eur_balance, RISK_PER_TRADE, current_price)`. -/
def buy_amount (eur_balance current_price : ℚ) : ℚ :=
  min (calculate_position_size eur_balance RISK_PER_TRADE current_price)
    (eur_balance / current_price)

/-- The mutable state of `main`'s loop (lines 153–155): `trailing_stop`,
`last_buy_price` (both `None`-or-float) and `historical_prices`. -/
structure DashState where
  trailing_stop : Option ℚ
  last_buy_price : Option ℚ
  historical_prices : List ℚ
deriving DecidableEq, Repr

/-- The observable effects of one loop iteration: whether `get_balances`
was called, the orders handed to `place_order` in call order, and the
`time.sleep` argument ending the iteration. -/
structure CycleEffects where
  balance_fetched : Bool
  orders : List Order
  sleep_seconds : ℚ
deriving DecidableEq, Repr

/-- One iteration of `main`'s `while True` loop (lines 160–213).
`priceOpt` is the result of `get_current_price()` (`none` models a failed
fetch); `eur_balance` and `dash_balance` are the balances the iteration
reads from `get_balances()`.  Faithful to the source: a failed price
fetch sleeps 10 s and `continue`s before any balance fetch; otherwise the
history is updated, the trend detected, both grids recomputed from the
initial levels with compression factor 0.9, balances fetched, then the
buy block (185–192), the trailing-stop block (194–202) and the grid-sell
block (204–211) run in sequence on the same fetched balances. -/
def dashCycle (st : DashState) (priceOpt : Option ℚ)
    (eur_balance dash_balance : ℚ) : DashState × CycleEffects :=
  match priceOpt with
  | none => (st, ⟨false, [], 10⟩)
  | some current_price =>
    let historical_prices := recordPrice st.historical_prices current_price
    let trend := detect_trend historical_prices 10 50
    let grid_buy_levels := adjust_grid_levels current_price INITIAL_GRID_BUY_LEVELS (9/10)
    let grid_sell_levels := adjust_grid_levels current_price INITIAL_GRID_SELL_LEVELS (9/10)
    -- buy block (lines 185–192); note: it never consults `last_buy_price`
    let buyHit : Option ℚ :=
      if trend ≠ "down" then firstBuyLevel (pySorted grid_buy_levels) current_price eur_balance
      else none
    let buyOrders : List Order :=
      match buyHit with
      | some _ => [⟨"buy", buy_amount eur_balance current_price, current_price⟩]
      | none => []
    let last_buy1 : Option ℚ :=
      match buyHit with
      | some _ => some current_price
      | none => st.last_buy_price
    -- trailing-stop block (lines 194–202)
    let trailRes : Option ℚ × List Order × Option ℚ :=
      if pyTruthy last_buy1 ∧ BALANCE_THRESHOLD < dash_balance then
        let ts1 :=
          match st.trailing_stop with
          | none => current_price * (1 - TRAILING_STOP_PERCENT)
          | some ts =>
            if ts < current_price then current_price * (1 - TRAILING_STOP_PERCENT) else ts
        if current_price ≤ ts1 then (none, [⟨"sell", dash_balance, current_price⟩], none)
        else (some ts1, [], last_buy1)
      else (st.trailing_stop, [], last_buy1)
    -- grid-sell block (lines 204–211), still on the balances fetched once
    let sellHit : Option ℚ :=
      if trend ≠ "up" then firstSellLevel (pySortedDesc grid_sell_levels) current_price dash_balance
      else none
    let sellRes : Option ℚ × List Order × Option ℚ :=
      match sellHit with
      | some _ => (none, [⟨"sell", dash_balance, current_price⟩], none)
      | none => (trailRes.1, [], trailRes.2.2)
    (⟨sellRes.1, sellRes.2.2, historical_prices⟩,
     ⟨true, buyOrders ++ trailRes.2.1 ++ sellRes.2.1, 60⟩)

/-- Whether some order of type `t` is among a cycle's placed orders. -/
def hasOrder (t : String) (eff : CycleEffects) : Bool :=
  eff.orders.any (fun o => o.order_type == t)

end Dash

namespace Pol

/-- `API_SECRET` of `POL_EUR_trallingloss.py` (line 13). -/
def API_SECRET : String := "HuyAYTP3N3jVES6o"

/-- `PAIR` (line 15). -/
def PAIR : String := "POL_EUR"

/-- `TRAILING_STOP_PERCENTAGE = 2` (line 16). -/
def TRAILING_STOP_PERCENTAGE : ℚ := 2

/-- `MAX_RETRIES = 5` (line 17), passed as `total=` to urllib3's `Retry`. -/
def MAX_RETRIES : Nat := 5

/-- `RETRY_BACKOFF_FACTOR = 2` (line 18). -/
def RETRY_BACKOFF_FACTOR : ℚ := 2

/-- `status_forcelist=[429, 500, 502, 503, 504]` (line 45). -/
def status_forcelist : List Nat := [429, 500, 502, 503, 504]

/-- The string signed by `generate_signature` (line 26):
`method + req_body_str` with the default serialization of line 25. -/
def signedMessage (method : String) (req_body : Json.Payload) : String :=
  method ++ Json.dumpsDefault req_body

/-- `generate_signature` (lines 23–27): hex HMAC-SHA256 of the UTF-8
bytes of `signedMessage`, keyed by the hard-coded `API_SECRET`. -/
def generate_signature (method : String) (req_body : Json.Payload) : String :=
  Crypto.bytesToHex (Crypto.hmacSha256 (Crypto.utf8Bytes API_SECRET)
    (Crypto.utf8Bytes (signedMessage method req_body)))

/-- The request loop of urllib3 with a `Retry(total=total, ...)` strategy,
as mounted by `make_request` (lines 42–52).  `server k` is the HTTP
status the server answers to the `k`-th request.  One request is issued;
if its status is in the forcelist the retry counter is decremented, and
when it is exhausted `MaxRetryError` is raised (result `none` — which
`requests` surfaces as a `RequestException` that `make_request` catches
on line 60, returning `None` to its caller); otherwise the request is
reissued.  Returns the number of requests actually sent together with
the final status. -/
def runRetrySession (server : Nat → Nat) (total attempt : Nat) : Nat × Option Nat :=
  let s := server attempt
  if s ∈ status_forcelist then
    match total with
    | 0 => (1, none)
    | t + 1 =>
      let r := runRetrySession server t (attempt + 1)
      (r.1 + 1, r.2)
  else (1, some s)

/-- Line 161: `BUY_AMOUNT = max(min_amount, min_value / last_price)`. -/
def polBuyAmount (min_amount min_value last_price : ℚ) : ℚ :=
  max min_amount (min_value / last_price)

/-- Lines 157–175 of `trading_bot`: adjust `BUY_AMOUNT` to the pair
minimums, set `buy_price = last_price * 0.99`, and proceed only when
`available_balance ≥ BUY_AMOUNT * buy_price`; returns the
(amount, price) pair handed to `place_order`, or `none` when the balance
check aborts the trade. -/
def polTradePlan (min_amount min_value last_price available_balance : ℚ) :
    Option (ℚ × ℚ) :=
  let amt := polBuyAmount min_amount min_value last_price
  let buy_price := last_price * (99/100)
  if available_balance < amt * buy_price then none else some (amt, buy_price)

/-- The state of the trailing-stop monitoring loop (lines 194–195):
`highest_price` and the `None`-or-float `trailing_stop`. -/
structure PolMonState where
  highest_price : ℚ
  trailing_stop : Option ℚ
deriving DecidableEq, Repr

/-- Result of one monitoring-loop iteration: the new state, the order
handed to `place_order` (if any), and whether the loop `break`s. -/
structure PolStepResult where
  state : PolMonState
  order : Option Order
  loopExit : Bool
deriving DecidableEq, Repr

/-- `float(ticker.get("last", 0))` (line 200): `get_ticker` returns an
empty mapping when the fetch fails (lines 103–109), in which case the
default `0` is used. -/
def tickerLast (ticker : List (String × ℚ)) : ℚ :=
  (ticker.lookup "last").getD 0

/-- One iteration of the trailing-stop monitoring loop of `trading_bot`
(lines 197–219).  `ticker` is the mapping returned by `get_ticker(PAIR)`
(empty on a failed fetch); `amt` is the global `BUY_AMOUNT` used by the
sell call.  Faithful to the source: raise `highest_price` and recompute
`trailing_stop = highest_price * (1 - TRAILING_STOP_PERCENTAGE / 100)`
only when `current_price > highest_price`; then, if `trailing_stop` is
truthy and `current_price ≤ trailing_stop`, place the sell at
`current_price` and `break`. -/
def polMonitorStep (amt : ℚ) (st : PolMonState)
    (ticker : List (String × ℚ)) : PolStepResult :=
  let current_price := tickerLast ticker
  let st1 : PolMonState :=
    if st.highest_price < current_price then
      ⟨current_price, some (current_price * (1 - TRAILING_STOP_PERCENTAGE / 100))⟩
    else st
  if pyTruthy st1.trailing_stop ∧ current_price ≤ st1.trailing_stop.getD 0 then
    ⟨st1, some ⟨"sell", amt, current_price⟩, true⟩
  else ⟨st1, none, false⟩

end Pol

/-- Definition following the SPEC's words (§4.4 `sizePosition`), for
comparison with the sizing the source code actually performs:
`candidate = balance * riskFraction / price`,
`minRequired = max(minAmount, minValue / price)`,
result `max(minRequired, candidate)` capped by `balance / price`. -/
def sizePosition_spec (balance riskFraction price minAmount minValue : ℚ) : ℚ :=
  min (max (max minAmount (minValue / price)) (balance * riskFraction / price))
    (balance / price)

/-!
Theorems.  Helper lemmas come first, then one theorem per claim (with a
witness or counterexample where required).
-/

/-- If some member of the level list is at or above the price and the
balance clears the threshold, the buy-level scan finds a level. -/
theorem firstBuyLevel_isSome_of_mem (p eur l : ℚ)
    (hp : p ≤ l) (hbal : Dash.BALANCE_THRESHOLD < eur) :
    ∀ levels : List ℚ, l ∈ levels → (Dash.firstBuyLevel levels p eur).isSome := by
  intro levels
  induction levels with
  | nil => intro h; cases h
  | cons a rest ih =>
    intro hl
    unfold Dash.firstBuyLevel
    split
    · rfl
    · next hcond =>
      rcases List.mem_cons.mp hl with rfl | hmem
      · exact absurd ⟨hp, hbal⟩ hcond
      · exact ih hmem

/-- A default-separator entry is one byte longer than a compact entry
(the space after the colon). -/
theorem entryDefault_length (kv : String × Json.JVal) :
    (Json.entryDefault kv).length = (Json.entryCompact kv).length + 1 := by
  have h1 : ("\": ").length = 3 := rfl
  have h2 : ("\":").length = 2 := rfl
  simp only [Json.entryDefault, Json.entryCompact, String.length_append, h1, h2]
  omega

/-- Default-separator entries are `2 * n - 1` bytes longer than compact
entries for a nonempty payload of `n` keys (one space per colon, one per
comma). -/
theorem entriesDefault_length (p : Json.Payload) (hp : p ≠ []) :
    (Json.entriesDefault p).length = (Json.entriesCompact p).length + (2 * p.length - 1) := by
  induction p with
  | nil => exact absurd rfl hp
  | cons kv rest ih =>
    cases rest with
    | nil =>
      simpa [Json.entriesDefault, Json.entriesCompact] using entryDefault_length kv
    | cons kv2 rest2 =>
      have hne : (kv2 :: rest2) ≠ ([] : Json.Payload) := by simp
      have hcomma : (", ").length = 2 := rfl
      have hcomma2 : (",").length = 1 := rfl
      have he := entryDefault_length kv
      have hrec := ih hne
      have hlen : (kv2 :: rest2).length = rest2.length + 1 := List.length_cons kv2 rest2
      simp only [Json.entriesDefault, Json.entriesCompact, String.length_append,
        hcomma, hcomma2, List.length_cons] at he hrec ⊢
      omega

/-- C8: with compression factor 1, `adjust_grid_levels` returns exactly the
baseline levels sorted ascending — the same multiset, in ascending order,
each value unchanged.  (Purity over shared state holds by construction in
this embedding: the function depends only on its arguments, and the
baseline list value is untouched.) -/
theorem C8_adjust_grid_levels_factor_one (current_price : ℚ) (initial_levels : List ℚ) :
    Dash.adjust_grid_levels current_price initial_levels 1 = pySorted initial_levels ∧
    (Dash.adjust_grid_levels current_price initial_levels 1).Perm initial_levels ∧
    List.Sorted (· ≤ ·) (Dash.adjust_grid_levels current_price initial_levels 1) := by
  have hmap : initial_levels.map
      (fun level => current_price + (level - current_price) * 1) = initial_levels := by
    have hf : (fun level : ℚ => current_price + (level - current_price) * 1) = id := by
      funext level
      simp only [id]
      ring
    rw [hf, List.map_id]
  have h1 : Dash.adjust_grid_levels current_price initial_levels 1 = pySorted initial_levels := by
    rw [Dash.adjust_grid_levels, hmap]
  refine ⟨h1, ?_, ?_⟩
  · rw [h1]
    exact List.perm_insertionSort _ _
  · rw [h1]
    exact List.sorted_insertionSort _ _

/-- C9: the price history is a FIFO ring bounded to the most recent 100
entries: recording keeps the length at most 100, and after any sequence
of recorded prices (starting from the empty history of line 155) the
history is exactly the last 100 prices in arrival order. -/
theorem C9_price_history_fifo :
    (∀ (h : List ℚ) (p : ℚ), h.length ≤ 100 → (Dash.recordPrice h p).length ≤ 100) ∧
    (∀ ps : List ℚ, ps.foldl Dash.recordPrice [] = ps.drop (ps.length - 100)) := by
  constructor
  · intro hist p hlen
    simp only [Dash.recordPrice]
    split
    · next hgt =>
      simp only [List.length_drop, List.length_append, List.length_singleton]
      omega
    · next hle =>
      simp only [not_lt, List.length_append, List.length_singleton] at hle
      simpa using hle
  · intro ps
    induction ps using List.reverseRecOn with
    | nil => simp
    | append_singleton ps p ih =>
      rw [List.foldl_append, List.foldl_cons, List.foldl_nil, ih]
      simp only [Dash.recordPrice]
      by_cases hlen : ps.length < 100
      · have h0 : ps.length - 100 = 0 := by omega
        have hno : ¬ 100 < (ps ++ [p]).length := by
          simp only [not_lt, List.length_append, List.length_singleton]
          omega
        rw [h0, List.drop_zero, if_neg hno]
        have h1 : (ps ++ [p]).length - 100 = 0 := by
          simp only [List.length_append, List.length_singleton]
          omega
        rw [h1, List.drop_zero]
      · push_neg at hlen
        have hdlen : (ps.drop (ps.length - 100)).length = 100 := by
          simp only [List.length_drop]
          omega
        have hyes : 100 < (ps.drop (ps.length - 100) ++ [p]).length := by
          simp only [List.length_append, List.length_singleton, hdlen]
          omega
        rw [if_pos hyes]
        have hone : 1 ≤ (ps.drop (ps.length - 100)).length := by
          rw [hdlen]
          omega
        have harg : ps.length - 100 + 1 = ps.length + 1 - 100 := by omega
        have hstep : (ps.drop (ps.length - 100) ++ [p]).drop 1
            = ps.drop (ps.length + 1 - 100) ++ [p] := by
          rw [List.drop_append_of_le_length hone, List.drop_drop, harg]
        have hle2 : (ps ++ [p]).length - 100 ≤ ps.length := by
          simp only [List.length_append, List.length_singleton]
          omega
        rw [hstep, List.drop_append_of_le_length hle2]
        simp only [List.length_append, List.length_singleton]

/-- C9 witness: recording one price onto a two-entry history keeps the
length within the bound. -/
theorem C9_witness : (Dash.recordPrice [1, 2] 3).length ≤ 100 :=
  C9_price_history_fifo.1 [1, 2] 3 (by norm_num)

/-- C10: in the monitoring loop of `POL_EUR_trallingloss.py`, a failed
ticker fetch (empty mapping) makes `current_price = 0`; whenever a
positive trailing stop is already set (and the tracked highest price is
nonnegative, as it always is for exchange prices), the stop condition
`current_price ≤ trailing_stop` fires and a sell order is placed at
price 0 and the loop exits — data unavailability is indistinguishable
from a price crash at this interface. -/
theorem C10_failed_ticker_sells_at_zero (amt t : ℚ) (st : Pol.PolMonState)
    (hstop : st.trailing_stop = some t) (ht : 0 < t) (hhp : 0 ≤ st.highest_price) :
    Pol.polMonitorStep amt st [] = ⟨st, some ⟨"sell", amt, 0⟩, true⟩ := by
  have hprice : Pol.tickerLast [] = 0 := rfl
  simp only [Pol.polMonitorStep, hprice]
  rw [if_neg (not_lt.mpr hhp), if_pos]
  rw [hstop]
  refine ⟨by simp [pyTruthy, ht.ne'], by simpa using ht.le⟩

/-- C10 witness: with highest price 100 and trailing stop 98 set, a
failed ticker fetch places a sell of the held amount at price 0. -/
theorem C10_witness :
    Pol.polMonitorStep 1 ⟨100, some 98⟩ [] = ⟨⟨100, some 98⟩, some ⟨"sell", 1, 0⟩, true⟩ :=
  C10_failed_ticker_sells_at_zero 1 98 ⟨100, some 98⟩ rfl (by norm_num) (by norm_num)

/-- C5: `detect_trend` returns `"neutral"` for histories shorter than the
long window (50); with at least 50 samples it returns `"up"` exactly when
the mean of the last 10 prices exceeds the mean of the last 50, `"down"`
exactly when it is smaller, and `"neutral"` exactly on ties; and the
scenario history of fifty 10s followed by one 20 yields `"up"`. -/
theorem C5_detect_trend_sma_crossover :
    (∀ prices : List ℚ, prices.length < 50 → Dash.detect_trend prices 10 50 = "neutral") ∧
    (∀ prices : List ℚ, 50 ≤ prices.length →
      ((Dash.detect_trend prices 10 50 = "up" ↔ Dash.sma prices 50 < Dash.sma prices 10) ∧
       (Dash.detect_trend prices 10 50 = "down" ↔ Dash.sma prices 10 < Dash.sma prices 50) ∧
       (Dash.detect_trend prices 10 50 = "neutral" ↔ Dash.sma prices 10 = Dash.sma prices 50))) ∧
    Dash.detect_trend (List.replicate 50 (10:ℚ) ++ [20]) 10 50 = "up" := by
  refine ⟨?_, ?_, ?_⟩
  · intro prices h
    simp [Dash.detect_trend, h]
  · intro prices h
    have hn : ¬ prices.length < 50 := not_lt.mpr h
    unfold Dash.detect_trend
    rw [if_neg hn]
    rcases lt_trichotomy (Dash.sma prices 10) (Dash.sma prices 50) with hlt | heq | hgt
    · rw [if_neg (not_lt.mpr hlt.le), if_pos hlt]
      exact ⟨iff_of_false (by decide) (lt_asymm hlt),
        iff_of_true rfl hlt,
        iff_of_false (by decide) hlt.ne⟩
    · have h1 : ¬ Dash.sma prices 50 < Dash.sma prices 10 := by
        rw [heq]
        exact lt_irrefl _
      have h2 : ¬ Dash.sma prices 10 < Dash.sma prices 50 := by
        rw [heq]
        exact lt_irrefl _
      rw [if_neg h1, if_neg h2]
      exact ⟨iff_of_false (by decide) h1,
        iff_of_false (by decide) h2,
        iff_of_true rfl heq⟩
    · rw [if_pos hgt]
      exact ⟨iff_of_true rfl hgt,
        iff_of_false (by decide) (lt_asymm hgt),
        iff_of_false (by decide) hgt.ne'⟩
  · norm_num [Dash.detect_trend, Dash.sma, pyTail, List.replicate, List.sum]

/-- C5 witness: a one-sample history is classified `"neutral"`, and the
scenario part of the theorem holds at its concrete history. -/
theorem C5_witness : Dash.detect_trend [(12:ℚ)] 10 50 = "neutral" ∧
    Dash.detect_trend (List.replicate 50 (10:ℚ) ++ [20]) 10 50 = "up" :=
  ⟨C5_detect_trend_sma_crossover.1 [(12:ℚ)] (by norm_num),
   C5_detect_trend_sma_crossover.2.2⟩

/-- C3 counterexample: the client is configured with `MAX_RETRIES = 5` as
urllib3 `Retry(total=5)`; against a server that always answers 503 it
does NOT make exactly 5 request attempts (it makes 6: the first attempt
plus 5 retries). -/
theorem C3_counterexample :
    (Pol.runRetrySession (fun _ => 503) Pol.MAX_RETRIES 0).1 ≠ 5 := by decide

/-- C3 amended: against a server whose every answer is in the status
forcelist, a `Retry(total=n)` session makes exactly `n + 1` request
attempts (the first attempt plus `n` retries) and ends in
`MaxRetryError` (`none`), which `make_request` reports as a terminal
`None`; with the configured `MAX_RETRIES = 5` that is 6 attempts. -/
theorem C3_amended_retry_budget (server : Nat → Nat) (total : Nat)
    (hserver : ∀ k, server k ∈ Pol.status_forcelist) :
    ∀ attempt, Pol.runRetrySession server total attempt = (total + 1, none) := by
  induction total with
  | zero =>
    intro attempt
    unfold Pol.runRetrySession
    rw [if_pos (hserver attempt)]
  | succ t ih =>
    intro attempt
    unfold Pol.runRetrySession
    rw [if_pos (hserver attempt)]
    simp [ih (attempt + 1)]

/-- C3 witness: the always-503 server at the configured budget of 5:
six requests are sent and the result is the terminal error. -/
theorem C3_witness : Pol.runRetrySession (fun _ => 503) 5 0 = (6, none) :=
  C3_amended_retry_budget (fun _ => 503) 5 (fun _ => by simp [Pol.status_forcelist]) 0

/-- C2 counterexample: the claimed sizing formula is not what the code
computes.  In `POL_EUR_trallingloss.py` with pair minimums
`min_amount = 1`, `min_value = 0`, last price 100 and available balance
99, the trade proceeds with amount 1 at price 99 — an order size above
`balance / price = 99/100`, which the claim says is an upper bound —
while the spec formula `sizePosition` would cap the size at `99/100`. -/
theorem C2_counterexample :
    Pol.polTradePlan 1 0 100 99 = some (1, 99) ∧
    ¬ ((1:ℚ) ≤ 99 / 100) ∧
    sizePosition_spec 99 (1/100) 100 1 0 = 99 / 100 := by
  refine ⟨?_, by norm_num, ?_⟩
  · norm_num [Pol.polTradePlan, Pol.polBuyAmount]
  · norm_num [sizePosition_spec]

/-- C2 amended: neither bot implements the spec's combined `sizePosition`.
`DASH_EURO_BOT.py` sizes a buy as
`min(balance * riskFraction / price, balance / price)`, which never
exceeds `balance / price` but ignores the exchange minimums;
`POL_EUR_trallingloss.py` sizes it as `max(minAmount, minValue / price)`,
which meets both minimums, and places the order only when the available
balance covers `amount * (0.99 * price)` (so `amount * orderPrice ≤
balance`, but `amount` itself may exceed `balance / price`). -/
theorem C2_amended_sizing_bounds (balance price min_amount min_value last_price avail : ℚ)
    (plan : ℚ × ℚ)
    (hplan : Pol.polTradePlan min_amount min_value last_price avail = some plan) :
    Dash.buy_amount balance price ≤ balance / price ∧
    min_amount ≤ Pol.polBuyAmount min_amount min_value last_price ∧
    min_value / last_price ≤ Pol.polBuyAmount min_amount min_value last_price ∧
    plan = (Pol.polBuyAmount min_amount min_value last_price, last_price * (99/100)) ∧
    plan.1 * plan.2 ≤ avail := by
  simp only [Pol.polTradePlan] at hplan
  split at hplan
  · exact absurd hplan (by simp)
  · next hc =>
    rw [Option.some.injEq] at hplan
    subst hplan
    exact ⟨min_le_right _ _, le_max_left _ _, le_max_right _ _, rfl, not_lt.mp hc⟩

/-- C2 witness: balance 100 at price 50 for the DASH bound, and the POL
plan (amount 1, price 99) from minimums (1, 0) at last price 100 with
available balance 99. -/
theorem C2_witness :
    Dash.buy_amount 100 50 ≤ 100 / 50 ∧
    (1:ℚ) ≤ Pol.polBuyAmount 1 0 100 ∧
    (0:ℚ) / 100 ≤ Pol.polBuyAmount 1 0 100 ∧
    ((1:ℚ), (99:ℚ)) = (Pol.polBuyAmount 1 0 100, 100 * (99/100)) ∧
    ((1:ℚ), (99:ℚ)).1 * ((1:ℚ), (99:ℚ)).2 ≤ 99 :=
  C2_amended_sizing_bounds 100 50 1 0 100 99 (1, 99)
    (by norm_num [Pol.polTradePlan, Pol.polBuyAmount])

/-- C7 counterexample: there is no `[20, 40]` (or any other) price sanity
band in `DASH_EURO_BOT.py`.  At fetched price 45 — outside the claimed
bound — the cycle is not skipped: `get_balances` is still called. -/
theorem C7_counterexample :
    ¬ ((20:ℚ) ≤ 45 ∧ (45:ℚ) ≤ 40) ∧
    (Dash.dashCycle ⟨none, none, []⟩ (some 45) 0 0).2.balance_fetched = true := by
  refine ⟨by norm_num, ?_⟩
  simp [Dash.dashCycle]

/-- C7 amended: the only skipped cycle is a failed price fetch
(`get_current_price()` returning `None`): it leaves the state unchanged,
fetches no balances, places no orders and waits 10 s — which is shorter,
not longer, than the normal 60 s cycle; every successfully fetched
price, however far from recent prices, runs a full cycle including the
balance fetch. -/
theorem C7_amended_no_sanity_band (st : Dash.DashState) (eur dash p : ℚ) :
    Dash.dashCycle st none eur dash = (st, ⟨false, [], 10⟩) ∧
    (Dash.dashCycle st (some p) eur dash).2.balance_fetched = true ∧
    (Dash.dashCycle st (some p) eur dash).2.sleep_seconds = 60 ∧
    ((10:ℚ) < 60) := by
  refine ⟨rfl, ?_, ?_, by norm_num⟩ <;> simp [Dash.dashCycle]

/-- C1 counterexample: in `DASH_EURO_BOT.py` the trailing stop is
recomputed from the CURRENT price (not the highest price since entry)
whenever the current price exceeds the current stop, so it can decrease
while a position is held.  With a held position (`last_buy_price` set,
DASH balance 1 above the threshold, no sell triggered) and fetched prices
26 then 25.5, the stop moves from 25.48 down to 24.99. -/
theorem C1_counterexample :
    (Dash.dashCycle ⟨none, some 30, []⟩ (some 26) 0 1).1.trailing_stop = some (637/25) ∧
    (Dash.dashCycle ⟨none, some 30, []⟩ (some 26) 0 1).1.last_buy_price = some 30 ∧
    (Dash.dashCycle (Dash.dashCycle ⟨none, some 30, []⟩ (some 26) 0 1).1
      (some (51/2)) 0 1).1.trailing_stop = some (2499/100) ∧
    (2499/100 : ℚ) < 637/25 ∧
    stopOrdered (some (637/25)) (some (2499/100)) = false := by
  refine ⟨?_, ?_, ?_, by norm_num, by norm_num [stopOrdered]⟩ <;>
    norm_num [Dash.dashCycle, Dash.recordPrice, Dash.detect_trend, Dash.sma, pyTail,
      Dash.adjust_grid_levels, pySorted, pySortedDesc, List.insertionSort, List.orderedInsert,
      Dash.firstBuyLevel, Dash.firstSellLevel, Dash.buy_amount, Dash.calculate_position_size,
      pyTruthy, Dash.BALANCE_THRESHOLD, Dash.RISK_PER_TRADE, Dash.TRAILING_STOP_PERCENT,
      Dash.INITIAL_GRID_BUY_LEVELS, Dash.INITIAL_GRID_SELL_LEVELS]

/-- C1 amended: the never-decreasing trailing stop holds for the
`POL_EUR_trallingloss.py` monitoring loop, whose stop is recomputed as
`highest_price * (1 - trailingPercent)` only on a new high: along any
reachable state (stop unset or equal to `highest * (1 - 2/100)`), one
iteration preserves that invariant, never lowers the tracked highest
price, and never lowers a set stop.  (In `DASH_EURO_BOT.py` the stop is
instead recomputed from the current price whenever the price exceeds the
stop and can decrease — see the counterexample.) -/
theorem C1_pol_trailing_stop_monotone (amt : ℚ) (st : Pol.PolMonState)
    (ticker : List (String × ℚ))
    (hinv : st.trailing_stop = none ∨
      st.trailing_stop = some (st.highest_price * (1 - Pol.TRAILING_STOP_PERCENTAGE / 100))) :
    ((Pol.polMonitorStep amt st ticker).state.trailing_stop = none ∨
      (Pol.polMonitorStep amt st ticker).state.trailing_stop
        = some ((Pol.polMonitorStep amt st ticker).state.highest_price
            * (1 - Pol.TRAILING_STOP_PERCENTAGE / 100))) ∧
    st.highest_price ≤ (Pol.polMonitorStep amt st ticker).state.highest_price ∧
    stopOrdered st.trailing_stop (Pol.polMonitorStep amt st ticker).state.trailing_stop = true := by
  have hstate : (Pol.polMonitorStep amt st ticker).state
      = if st.highest_price < Pol.tickerLast ticker then
          ⟨Pol.tickerLast ticker,
           some (Pol.tickerLast ticker * (1 - Pol.TRAILING_STOP_PERCENTAGE / 100))⟩
        else st := by
    simp only [Pol.polMonitorStep]
    split <;> split <;> rfl
  rw [hstate]
  by_cases hup : st.highest_price < Pol.tickerLast ticker
  · rw [if_pos hup]
    refine ⟨Or.inr rfl, hup.le, ?_⟩
    have hc : (0:ℚ) ≤ 1 - Pol.TRAILING_STOP_PERCENTAGE / 100 := by
      norm_num [Pol.TRAILING_STOP_PERCENTAGE]
    rcases hinv with hnone | hsome
    · rw [hnone]
      rfl
    · rw [hsome]
      simp only [stopOrdered, decide_eq_true_eq]
      exact mul_le_mul_of_nonneg_right hup.le hc
  · rw [if_neg hup]
    refine ⟨hinv, le_refl _, ?_⟩
    cases st.trailing_stop with
    | none => rfl
    | some s => simp [stopOrdered]

/-- C1 witness: highest price 100, stop 98 (= 100·0.98), next price 99:
the POL loop neither lowers the highest price nor the stop. -/
theorem C1_witness :
    ((Pol.polMonitorStep 1 ⟨100, some 98⟩ [("last", 99)]).state.trailing_stop = none ∨
      (Pol.polMonitorStep 1 ⟨100, some 98⟩ [("last", 99)]).state.trailing_stop
        = some ((Pol.polMonitorStep 1 ⟨100, some 98⟩ [("last", 99)]).state.highest_price
            * (1 - Pol.TRAILING_STOP_PERCENTAGE / 100))) ∧
    (100:ℚ) ≤ (Pol.polMonitorStep 1 ⟨100, some 98⟩ [("last", 99)]).state.highest_price ∧
    stopOrdered (some 98)
      (Pol.polMonitorStep 1 ⟨100, some 98⟩ [("last", 99)]).state.trailing_stop = true :=
  C1_pol_trailing_stop_monotone 1 ⟨100, some 98⟩ [("last", 99)]
    (Or.inr (by norm_num [Pol.TRAILING_STOP_PERCENTAGE]))

/-- C4 counterexample: the two clients do not produce the same byte-exact
serialization, and the POL signature is not the HMAC of the compact
form: at method `"account"` and payload `{"ts": 1}`, POL's signed string
(default separators, `'\x7b"ts": 1\x7d'`) differs from DASH's compact
one (`'\x7b"ts":1\x7d'`), and POL's signature differs from the
HMAC-SHA256 (under POL's own secret) of the compact message. -/
theorem C4_counterexample :
    Pol.signedMessage "account" [("ts", Json.JVal.jint 1)]
      ≠ Dash.signedMessage "account" [("ts", Json.JVal.jint 1)] ∧
    Pol.generate_signature "account" [("ts", Json.JVal.jint 1)]
      ≠ Crypto.bytesToHex (Crypto.hmacSha256 (Crypto.utf8Bytes Pol.API_SECRET)
          (Crypto.utf8Bytes (Dash.signedMessage "account" [("ts", Json.JVal.jint 1)]))) := by
  constructor
  · decide
  · decide

/-- C4 amended: each client signs the hex HMAC-SHA256, keyed by its
secret, of the UTF-8 bytes of the method name concatenated with ITS OWN
`json.dumps` serialization of the payload (keys in insertion order):
compact separators in `DASH_EURO_BOT.py`, but the default separators
(`', '`, `': '`) in `POL_EUR_trallingloss.py`.  For every nonempty
payload the two signed strings differ — POL's is exactly
`2·keys − 1` bytes longer — so the byte-exact-equality part of the claim
fails for every payload with at least one key. -/
theorem C4_amended_messages_differ (method : String) (kv : String × Json.JVal)
    (rest : Json.Payload) :
    (Pol.signedMessage method (kv :: rest)).length
      = (Dash.signedMessage method (kv :: rest)).length + (2 * (kv :: rest).length - 1) ∧
    Pol.signedMessage method (kv :: rest) ≠ Dash.signedMessage method (kv :: rest) := by
  have hlen := entriesDefault_length (kv :: rest) (by simp)
  have hlc : (kv :: rest).length = rest.length + 1 := List.length_cons kv rest
  have hmain : (Pol.signedMessage method (kv :: rest)).length
      = (Dash.signedMessage method (kv :: rest)).length + (2 * (kv :: rest).length - 1) := by
    simp only [Pol.signedMessage, Dash.signedMessage, Json.dumpsDefault, Json.dumpsCompact,
      String.length_append]
    omega
  refine ⟨hmain, fun h => ?_⟩
  have hflen := congrArg String.length h
  omega

/-- C6 counterexample: in `DASH_EURO_BOT.py` the buy block never checks
whether a position is already held.  From a state with
`last_buy_price = 30` and a held DASH balance of 1 (above the dust
threshold) — i.e. not an Idle state — a cycle at price 20 with EUR
balance 10 still places a buy order. -/
theorem C6_counterexample :
    (⟨none, some 30, []⟩ : Dash.DashState).last_buy_price = some 30 ∧
    Dash.BALANCE_THRESHOLD < 1 ∧
    Dash.hasOrder "buy" (Dash.dashCycle ⟨none, some 30, []⟩ (some 20) 10 1).2 = true := by
  refine ⟨rfl, by norm_num [Dash.BALANCE_THRESHOLD], ?_⟩
  have h1 : ("neutral" = "down") = False := eq_false (by decide)
  have h2 : ("neutral" = "up") = False := eq_false (by decide)
  norm_num [Dash.hasOrder, Dash.dashCycle, Dash.recordPrice, Dash.detect_trend, Dash.sma,
    pyTail, Dash.adjust_grid_levels, pySorted, pySortedDesc, List.insertionSort,
    List.orderedInsert, Dash.firstBuyLevel, Dash.firstSellLevel, Dash.buy_amount,
    Dash.calculate_position_size, pyTruthy, Dash.BALANCE_THRESHOLD, Dash.RISK_PER_TRADE,
    Dash.TRAILING_STOP_PERCENT, Dash.INITIAL_GRID_BUY_LEVELS, Dash.INITIAL_GRID_SELL_LEVELS,
    h1, h2]

/-- C6 amended: in `DASH_EURO_BOT.py` a buy is placed whenever the trend
is not `"down"`, the price is at or below the top grid buy level
(24.1, hence at or below its compressed image), and the EUR balance
exceeds the dust threshold — REGARDLESS of `last_buy_price`, i.e. also
while a position is held; the engine merely overwrites `last_buy_price`,
so consecutive buys stack.  (Only the single-shot
`POL_EUR_trallingloss.py` holds at most one position, by running exactly
one buy/sell round.) -/
theorem C6_amended_buy_ignores_position (ts : Option ℚ) (q : ℚ) (hist : List ℚ)
    (eur dash p : ℚ)
    (htrend : Dash.detect_trend (Dash.recordPrice hist p) 10 50 ≠ "down")
    (hlevel : p ≤ 241/10) (hbal : Dash.BALANCE_THRESHOLD < eur) :
    Dash.hasOrder "buy" (Dash.dashCycle ⟨ts, some q, hist⟩ (some p) eur dash).2 = true := by
  have hple : p ≤ p + (241/10 - p) * (9/10) := by nlinarith
  have hmem : (p + (241/10 - p) * (9/10))
      ∈ pySorted (Dash.adjust_grid_levels p Dash.INITIAL_GRID_BUY_LEVELS (9/10)) := by
    rw [pySorted, (List.perm_insertionSort _ _).mem_iff, Dash.adjust_grid_levels, pySorted,
      (List.perm_insertionSort _ _).mem_iff]
    exact List.mem_map_of_mem _ (by simp [Dash.INITIAL_GRID_BUY_LEVELS])
  have hsome := firstBuyLevel_isSome_of_mem p eur _ hple hbal _ hmem
  obtain ⟨lv, hlv⟩ := Option.isSome_iff_exists.mp hsome
  simp only [Dash.dashCycle]
  rw [if_pos htrend, hlv]
  simp [Dash.hasOrder]

/-- C6 witness: at price 19 with EUR balance 5, DASH holdings 2 and a
recorded entry at 28, the theorem's hypotheses hold and a buy is placed
while the position is held. -/
theorem C6_witness :
    Dash.hasOrder "buy" (Dash.dashCycle ⟨none, some 28, []⟩ (some 19) 5 2).2 = true := by
  have htrend : Dash.detect_trend (Dash.recordPrice [] 19) 10 50 ≠ "down" := by
    have hneu : Dash.detect_trend (Dash.recordPrice [] 19) 10 50 = "neutral" := by
      norm_num [Dash.detect_trend, Dash.recordPrice]
    rw [hneu]
    decide
  exact C6_amended_buy_ignores_position none 28 [] 5 2 19 htrend (by norm_num)
    (by norm_num [Dash.BALANCE_THRESHOLD])
